import Mathlib

/-!
Verification of the stratum client controller of `epic-miner`
(`src/bin/client.rs`), via a shallow embedding of its data model and
handler functions.  Stateful Rust code is embedded as explicit
state-passing functions: each handler takes the shared `Stats` value and
returns the possibly-failing result, the updated `Stats`, and the list
of messages sent on the miner channel, in send order.
-/

namespace EpicMiner

/-- A JSON value, modelling `serde_json::Value`.  Objects keep their
fields as an association list. -/
inductive Json where
  | null : Json
  | bool (b : Bool) : Json
  | num (n : Int) : Json
  | str (s : String) : Json
  | arr (elems : List Json) : Json
  | obj (fields : List (String × Json)) : Json

/-- The proof-of-work algorithm enumeration (`core::Algorithm`):
Cuckoo, RandomX, ProgPow. -/
inductive Algorithm where
  | Cuckoo
  | RandomX
  | ProgPow
deriving DecidableEq, Repr

/-- The controller's error enumeration (`client::Error`). -/
inductive Error where
  | ConnectionError (s : String)
  | RequestError (s : String)
  | ResponseError (s : String)
  | JsonError (s : String)
  | GeneralError (s : String)
deriving DecidableEq, Repr

/-- `types::RpcError`: code plus message. -/
structure RpcError where
  code : Int
  message : String
deriving DecidableEq, Repr

/-- `types::RpcRequest`.  `params` is an optional raw JSON value. -/
structure RpcRequest where
  id : String
  jsonrpc : String
  method : String
  params : Option Json

/-- `types::RpcResponse`.  The server echoes the request's `method`;
at most one of `result` / `error` is meaningful. -/
structure RpcResponse where
  id : String
  jsonrpc : String
  method : String
  result : Option Json
  error : Option RpcError

/-- `types::JobTemplate`.  The two difficulty lists are association
lists keyed by algorithm name.  `epochs` is opaque to the controller
and passed through to the miner, so it is kept as a raw JSON value. -/
structure JobTemplate where
  height : Nat
  job_id : Nat
  pre_pow : String
  algorithm : String
  difficulty : List (String × Nat)
  block_difficulty : List (String × Nat)
  epochs : Json

/-- `types::EpochTemplate`: just the opaque epochs payload. -/
structure EpochTemplate where
  epochs : Json

/-- `types::WorkerStatus`, as consumed by the `status` response
handler (fields `accepted`, `rejected`, `stale` are the ones read). -/
structure WorkerStatus where
  id : String
  height : Nat
  difficulty : Nat
  accepted : Nat
  rejected : Nat
  stale : Nat

/-- `types::MinerMessage`: the controller-to-miner channel messages. -/
inductive MinerMessage where
  | ReceivedJob (height : Nat) (job_id : Nat) (difficulty : Nat) (pre_pow : String)
  | ReceivedSeed (epochs : Json)
  | StopJob

/-- Modelled from the spec: the solution-counter section of the shared
stats (`mining_stats.solution_stats`); the `stats` module is not among
the given sources, its fields are named in §3 of the specification and
used throughout `client.rs`. -/
structure SolutionStats where
  num_shares_accepted : Nat := 0
  num_rejected : Nat := 0
  num_staled : Nat := 0
  num_blocks_found : Nat := 0
deriving DecidableEq, Repr

/-- Modelled from the spec: the client section of the shared stats
(`client_stats`); fields as named in §3 of the specification and used
throughout `client.rs`. -/
structure ClientStats where
  connected : Bool := false
  connection_status : String := ""
  my_algorithm : String := ""
  algorithm_needed : String := ""
  current_network_difficulty : String := ""
  last_message_sent : String := ""
  last_message_received : String := ""
deriving DecidableEq, Repr

/-- The shared `Stats` record guarded by the RwLock. -/
structure Stats where
  client_stats : ClientStats := {}
  solution_stats : SolutionStats := {}
deriving DecidableEq, Repr

/-- Does `pat` occur as a contiguous substring of `s` (Rust
`str::contains`), on the character lists? -/
def listIsInfix (pat s : List Char) : Bool :=
  match s with
  | [] => pat.isEmpty
  | _ :: t => pat.isPrefixOf s || listIsInfix pat t

/-- Rust `str::contains` with a string pattern. -/
def strContains (s pat : String) : Bool :=
  listIsInfix pat.toList s.toList

/-- JSON string escaping used when serializing (model of serde_json's
compact printer; the characters relevant here need only quote and
backslash handling). -/
def escapeJsonString (s : String) : String :=
  s.toList.foldl
    (fun acc c =>
      if c = '\x22' then acc ++ "\\\x22"
      else if c = '\\' then acc ++ "\\\\"
      else if c = '\n' then acc ++ "\\n"
      else if c = '\t' then acc ++ "\\t"
      else if c = '\r' then acc ++ "\\r"
      else acc.push c) ""

mutual

/-- Compact JSON serialization, modelling `serde_json::to_string` on a
`Value`. -/
def jsonToString : Json → String
  | .null => "null"
  | .bool b => if b then "true" else "false"
  | .num n => toString n
  | .str s => "\x22" ++ escapeJsonString s ++ "\x22"
  | .arr elems => "[" ++ jsonListToString elems ++ "]"
  | .obj fields => "\x7b" ++ jsonFieldsToString fields ++ "\x7d"

def jsonListToString : List Json → String
  | [] => ""
  | [x] => jsonToString x
  | x :: rest => jsonToString x ++ "," ++ jsonListToString rest

def jsonFieldsToString : List (String × Json) → String
  | [] => ""
  | [(k, v)] => "\x22" ++ escapeJsonString k ++ "\x22:" ++ jsonToString v
  | (k, v) :: rest =>
      "\x22" ++ escapeJsonString k ++ "\x22:" ++ jsonToString v ++ "," ++
        jsonFieldsToString rest

end

/-- Field lookup in a JSON object's association list. -/
def jlookup (fields : List (String × Json)) (key : String) : Option Json :=
  (fields.find? (fun p => p.1 = key)).map (·.2)

/-- Decode a JSON value as a `u64` (a non-negative integer), as serde
does for the numeric fields. -/
def asNat : Json → Option Nat
  | .num n => if 0 ≤ n then some n.toNat else none
  | _ => none

/-- Decode a JSON value as a string. -/
def asString : Json → Option String
  | .str s => some s
  | _ => none

/-- Decode one `(String, u64)` pair from a two-element JSON array, as
serde does for Rust tuples. -/
def asDiffPair : Json → Option (String × Nat)
  | .arr [a, d] => do
      let s ← asString a
      let n ← asNat d
      pure (s, n)
  | _ => none

/-- Decode a `Vec<(String, u64)>` difficulty association list. -/
def asDiffList : Json → Option (List (String × Nat))
  | .arr elems => elems.mapM asDiffPair
  | _ => none

/-- The error produced when a strongly-typed serde decode fails: the
`From<serde_json::Error>` impl wraps it as `Error::JsonError`. -/
def jsonDecodeError (what : String) : Error :=
  .JsonError ("Failed to parse JSON: " ++ what)

/-- `serde_json::from_value::<JobTemplate>`: decode a `JobTemplate`
from a JSON object (all fields required; `epochs` passed through
raw). -/
def jobTemplateFromJson (j : Json) : Except Error JobTemplate :=
  match j with
  | .obj fields =>
    match jlookup fields "height" >>= asNat,
          jlookup fields "job_id" >>= asNat,
          jlookup fields "pre_pow" >>= asString,
          jlookup fields "algorithm" >>= asString,
          jlookup fields "difficulty" >>= asDiffList,
          jlookup fields "block_difficulty" >>= asDiffList,
          jlookup fields "epochs" with
    | some height, some job_id, some pre_pow, some algorithm,
      some difficulty, some block_difficulty, some epochs =>
        .ok { height, job_id, pre_pow, algorithm, difficulty,
              block_difficulty, epochs }
    | _, _, _, _, _, _, _ => .error (jsonDecodeError "JobTemplate")
  | _ => .error (jsonDecodeError "JobTemplate")

/-- `serde_json::from_value::<EpochTemplate>`. -/
def epochTemplateFromJson (j : Json) : Except Error EpochTemplate :=
  match j with
  | .obj fields =>
    match jlookup fields "epochs" with
    | some epochs => .ok { epochs }
    | none => .error (jsonDecodeError "EpochTemplate")
  | _ => .error (jsonDecodeError "EpochTemplate")

/-- `serde_json::from_value::<WorkerStatus>`. -/
def workerStatusFromJson (j : Json) : Except Error WorkerStatus :=
  match j with
  | .obj fields =>
    match jlookup fields "id" >>= asString,
          jlookup fields "height" >>= asNat,
          jlookup fields "difficulty" >>= asNat,
          jlookup fields "accepted" >>= asNat,
          jlookup fields "rejected" >>= asNat,
          jlookup fields "stale" >>= asNat with
    | some id, some height, some difficulty, some accepted,
      some rejected, some stale =>
        .ok { id, height, difficulty, accepted, rejected, stale }
    | _, _, _, _, _, _ => .error (jsonDecodeError "WorkerStatus")
  | _ => .error (jsonDecodeError "WorkerStatus")

/-- `invlalid_error_response` (sic): the synthetic value substituted
when a response carries neither result nor error. -/
def invlalid_error_response : RpcError :=
  { code := 0, message := "Invalid error response received" }

/-- `Controller::parse_algorithm`: the controller's algorithm as its
lowercase wire token. -/
def parse_algorithm (alg : Algorithm) : String :=
  match alg with
  | .Cuckoo => "cuckoo"
  | .RandomX => "randomx"
  | .ProgPow => "progpow"

/-- `Controller::get_parse_algorithm`: parse a wire token back into an
`Algorithm`, failing on anything else. -/
def get_parse_algorithm (algo : String) : Except Error Algorithm :=
  if algo = "cuckoo" then .ok .Cuckoo
  else if algo = "randomx" then .ok .RandomX
  else if algo = "progpow" then .ok .ProgPow
  else .error (.RequestError "Algorithm isn't supported!")

/-- `Controller::parse_difficulty`: render a difficulty association
list as the three-algorithm display string (unknown names ignored,
missing ones shown as `Nan`). -/
def parse_difficulty (job_diff : List (String × Nat)) : String :=
  let step := fun (acc : String × String × String) (p : String × Nat) =>
    let (cuckoo_diff, progpow_diff, randomx_diff) := acc
    if p.1 = "cuckoo" then (toString p.2, progpow_diff, randomx_diff)
    else if p.1 = "randomx" then (cuckoo_diff, progpow_diff, toString p.2)
    else if p.1 = "progpow" then (cuckoo_diff, toString p.2, randomx_diff)
    else acc
  let r := job_diff.foldl step ("Nan", "Nan", "Nan")
  "Cuckatoo: " ++ r.1 ++ ", ProgPow: " ++ r.2.1 ++ ", RandomX: " ++ r.2.2

/-- The difficulty-extraction loop inside `Controller::send_miner_job`:
starting from a default of 1, scan the association list; each key is
parsed with `get_parse_algorithm` (whose failure aborts via `?`), and
the scan stops at the first entry for the controller's algorithm. -/
def extract_difficulty (alg : Algorithm) : List (String × Nat) → Except Error Nat
  | [] => .ok 1
  | (algo, difficulty) :: rest =>
    match get_parse_algorithm algo with
    | .error e => .error e
    | .ok a => if alg = a then .ok difficulty else extract_difficulty alg rest

/-- The display name of a job's algorithm used by `send_miner_job` for
`stats.client_stats.algorithm_needed`. -/
def display_algo_needed (algorithm : String) : String :=
  if algorithm = "cuckoo" then "Cuckatoo"
  else if algorithm = "randomx" then "RandomX"
  else if algorithm = "progpow" then "ProgPow"
  else ""

/-- `Controller::send_miner_job`: first send `ReceivedSeed(epochs)` on
the miner channel, then extract the difficulty for the controller's
algorithm (a failure there escapes after the seed was already sent),
update the stats, and finally send `ReceivedJob`.  Returns the result,
the updated stats and the miner-channel messages in send order. -/
def send_miner_job (alg : Algorithm) (job : JobTemplate) (st : Stats) :
    Except Error Unit × Stats × List MinerMessage :=
  let seed := MinerMessage.ReceivedSeed job.epochs
  match extract_difficulty alg job.difficulty with
  | .error e => (.error e, st, [seed])
  | .ok difficulty =>
    let algo_needed := display_algo_needed job.algorithm
    let job_diff := parse_difficulty job.difficulty
    let current_network_diff := parse_difficulty job.block_difficulty
    let st :=
      { st with client_stats :=
        { st.client_stats with
            last_message_received :=
              "Last Message Received: Start Job for Height: " ++
                toString job.height ++ ", Share Difficulty: " ++ job_diff
            algorithm_needed := algo_needed
            current_network_difficulty := current_network_diff } }
    (.ok (), st,
      [seed, MinerMessage.ReceivedJob job.height job.job_id difficulty job.pre_pow])

/-- `Controller::send_miner_seed`: forward a `ReceivedSeed`. -/
def send_miner_seed (job : EpochTemplate) (st : Stats) :
    Except Error Unit × Stats × List MinerMessage :=
  (.ok (), st, [MinerMessage.ReceivedSeed job.epochs])

/-- `Controller::send_miner_stop`: forward a `StopJob`. -/
def send_miner_stop (st : Stats) :
    Except Error Unit × Stats × List MinerMessage :=
  (.ok (), st, [MinerMessage.StopJob])

/-- The wire-token normalization applied to a job's `algorithm` field
before comparing it with the controller's token (`handle_request` and
the `getjobtemplate` response handler): known tokens map to
themselves, anything else to `""`. -/
def algo_needed_token (algorithm : String) : String :=
  if algorithm = "cuckoo" then "cuckoo"
  else if algorithm = "randomx" then "randomx"
  else if algorithm = "progpow" then "progpow"
  else ""

/-- `Controller::handle_request`: dispatch an inbound request.  Only
`"job"` is known; its params must be present and decode to a
`JobTemplate`; the job is forwarded when its algorithm matches the
controller's, otherwise the miner is told to stop. -/
def handle_request (alg : Algorithm) (req : RpcRequest) (st : Stats) :
    Except Error Unit × Stats × List MinerMessage :=
  if req.method = "job" then
    match req.params with
    | none => (.error (.RequestError "No params in job request"), st, [])
    | some params =>
      match jobTemplateFromJson params with
      | .error e => (.error e, st, [])
      | .ok job =>
        if parse_algorithm alg = algo_needed_token job.algorithm then
          send_miner_job alg job st
        else
          send_miner_stop st
  else
    (.error (.RequestError "Unknonw method"), st, [])

/-- Rust `{:?}` (Debug) rendering of a string: quoted and escaped. -/
def rustDebugString (s : String) : String :=
  "\x22" ++ escapeJsonString s ++ "\x22"

/-- Rust `{:?}` (Debug) rendering of an `RpcError`. -/
def rpcErrorDebug (e : RpcError) : String :=
  "RpcError \x7b code: " ++ toString e.code ++ ", message: " ++
    rustDebugString e.message ++ " \x7d"

/-- `Controller::handle_response`: dispatch an inbound response by its
echoed `method`.  Returns the result, the updated stats and the
miner-channel messages in send order. -/
def handle_response (alg : Algorithm) (res : RpcResponse) (st : Stats) :
    Except Error Unit × Stats × List MinerMessage :=
  if res.method = "status" then
    match res.result with
    | some result =>
      match workerStatusFromJson result with
      | .error e => (.error e, st, [])
      | .ok ws =>
        let st :=
          { st with client_stats :=
            { st.client_stats with
                last_message_received :=
                  "Last Message Received: Accepted: " ++ toString ws.accepted ++
                    ", Rejected: " ++ toString ws.rejected ++
                    ", Stale: " ++ toString ws.stale } }
        (.ok (), st, [])
    | none =>
      let err := res.error.getD invlalid_error_response
      let st :=
        { st with client_stats :=
          { st.client_stats with
              last_message_received :=
                "Last Message Received: Failed to get status: " ++
                  rpcErrorDebug err } }
      (.ok (), st, [])
  else if res.method = "getjobtemplate" then
    match res.result with
    | some result =>
      match jobTemplateFromJson result with
      | .error e => (.error e, st, [])
      | .ok job =>
        let job_diff := parse_difficulty job.block_difficulty
        let st :=
          { st with client_stats :=
            { st.client_stats with
                last_message_received :=
                  "Last Message Received: Got job for block " ++
                    toString job.height ++ " at difficulty " ++
                    rustDebugString job_diff } }
        if parse_algorithm alg = algo_needed_token job.algorithm then
          send_miner_job alg job st
        else
          send_miner_stop st
    | none =>
      let err := res.error.getD invlalid_error_response
      let st :=
        { st with client_stats :=
          { st.client_stats with
              last_message_received :=
                "Last Message Received: Failed to get job template: " ++
                  rpcErrorDebug err } }
      (.ok (), st, [])
  else if res.method = "submit" then
    match res.result with
    | some result =>
      let st :=
        { st with
            client_stats :=
              { st.client_stats with
                  last_message_received :=
                    "Last Message Received: Share Accepted!!" }
            solution_stats :=
              { st.solution_stats with
                  num_shares_accepted := st.solution_stats.num_shares_accepted + 1 } }
      let resultText := jsonToString result
      if strContains resultText "blockfound" then
        let st :=
          { st with
              client_stats :=
                { st.client_stats with
                    last_message_received :=
                      "Last Message Received: Block Found!!" }
              solution_stats :=
                { st.solution_stats with
                    num_blocks_found := st.solution_stats.num_blocks_found + 1 } }
        (.ok (), st, [])
      else
        (.ok (), st, [])
    | none =>
      let err := res.error.getD invlalid_error_response
      let st :=
        { st with client_stats :=
          { st.client_stats with
              last_message_received :=
                "Last Message Received: Failed to submit a solution: " ++
                  rustDebugString err.message } }
      let st :=
        if strContains err.message "too late" then
          { st with solution_stats :=
            { st.solution_stats with
                num_staled := st.solution_stats.num_staled + 1 } }
        else
          { st with solution_stats :=
            { st.solution_stats with
                num_rejected := st.solution_stats.num_rejected + 1 } }
      (.ok (), st, [])
  else if res.method = "keepalive" then
    match res.result with
    | some _ => (.ok (), st, [])
    | none =>
      let err := res.error.getD invlalid_error_response
      let st :=
        { st with client_stats :=
          { st.client_stats with
              last_message_received :=
                "Last Message Received: Failed to request keepalive: " ++
                  rpcErrorDebug err } }
      (.ok (), st, [])
  else if res.method = "login" then
    match res.result with
    | some _ => (.ok (), st, [])
    | none =>
      let err := res.error.getD invlalid_error_response
      let st :=
        { st with client_stats :=
          { st.client_stats with
              last_message_received :=
                "Last Message Received: Failed to log in: " ++
                  rpcErrorDebug err
              connection_status :=
                "Connection Status: Server requires login"
              connected := false } }
      (.ok (), st, [])
  else if res.method = "seed" then
    match res.result with
    | some result =>
      match epochTemplateFromJson result with
      | .error e => (.error e, st, [])
      | .ok job => send_miner_seed job st
    | none =>
      let err := res.error.getD invlalid_error_response
      let st :=
        { st with client_stats :=
          { st.client_stats with
              last_message_received :=
                "Last Message Received: Failed to get seed template: " ++
                  rpcErrorDebug err } }
      (.ok (), st, [])
  else
    let st :=
      { st with client_stats :=
        { st.client_stats with
            last_message_received :=
              "Last Message Received: Unknown Response: <response>" } }
    (.ok (), st, [])

/-- The kind of I/O error reported by `read_line` on the buffered
stream. -/
inductive IoErrorKind where
  | brokenPipe
  | wouldBlock
  | otherIo
deriving DecidableEq, Repr

/-- The outcome of the underlying `read_line` call: either a line was
read into the buffer (newline inclusive; `""` on a 0-byte read), or an
I/O error of some kind occurred. -/
inductive ReadLineOutcome where
  | ok (line : String)
  | err (kind : IoErrorKind)
deriving DecidableEq, Repr

/-- `Controller::read_message`, as a function of whether a stream is
present and of the `read_line` outcome: an absent stream, an empty
read, a `BrokenPipe` and any other I/O error all become
`ConnectionError "broken pipe"`; `WouldBlock` is the non-error
no-message outcome; a non-empty line is returned as the message. -/
def read_message (stream_present : Bool) (outcome : ReadLineOutcome) :
    Except Error (Option String) :=
  if !stream_present then
    .error (.ConnectionError "broken pipe")
  else
    match outcome with
    | .ok line =>
      if line = "" then .error (.ConnectionError "broken pipe")
      else .ok (some line)
    | .err .brokenPipe => .error (.ConnectionError "broken pipe")
    | .err .wouldBlock => .ok none
    | .err .otherIo => .error (.ConnectionError "broken pipe")

/-- Helper for `splitOnChar`: `acc` holds the current field's
characters in reverse. -/
def splitOnCharAux (sep : Char) : List Char → List Char → List String
  | [], acc => [String.mk acc.reverse]
  | c :: rest, acc =>
    if c = sep then String.mk acc.reverse :: splitOnCharAux sep rest []
    else splitOnCharAux sep rest (c :: acc)

/-- Rust `str::split` with a single-character pattern (the client
splits on `":"` and `"."`): fields between separators, with empty
fields kept — an input with no separator yields one field. -/
def splitOnChar (sep : Char) (s : String) : List String :=
  splitOnCharAux sep s.toList []

/-- The SNI base-host computation inside `Stream::try_connect` when TLS
is enabled: split the endpoint at `:`, split the host portion at `.`,
and index at `len - 2` and `len - 1`.  With fewer than two labels the
`usize` subtraction `splitted_url.len() - 2` underflows and the
indexing panics; the panic is modelled as `none` (a `some` result is
what a non-panicking run computes). -/
def base_host (server_url : String) : Option String :=
  let url_port := splitOnChar ':' server_url
  let splitted_url := splitOnChar '.' (url_port.headD "")
  if splitted_url.length < 2 then
    none
  else
    some (splitted_url.getD (splitted_url.length - 2) "" ++ "." ++
      splitted_url.getD (splitted_url.length - 1) "")

/-- `Controller::new` initializes `last_request_id` to 0. -/
def newLastRequestId : Nat := 0

/-- `send_message_get_job_template`'s request: id is the stringified
`last_request_id`, params carry the controller's algorithm token. -/
def get_job_template_request (lastId : Nat) (alg : Algorithm) : RpcRequest :=
  { id := toString lastId
    jsonrpc := "2.0"
    method := "getjobtemplate"
    params := some (.obj [("algorithm", .str (parse_algorithm alg))]) }

/-- `send_login`'s request (built only when the configured login is
non-empty): login, password (empty if unset) and the agent string. -/
def login_request (lastId : Nat) (login pass version : String) : RpcRequest :=
  { id := toString lastId
    jsonrpc := "2.0"
    method := "login"
    params := some (.obj
      [("login", .str login), ("pass", .str pass),
       ("agent", .str ("epic-miner/v" ++ version))]) }

/-- `send_message_get_status`'s request: no params. -/
def status_request (lastId : Nat) : RpcRequest :=
  { id := toString lastId
    jsonrpc := "2.0"
    method := "status"
    params := none }

/-- `send_message_submit`'s request: height, job id, nonce and the
algorithm-specific proof-of-work parameters. -/
def submit_request (lastId : Nat) (height job_id nonce : Nat) (pow : Json) :
    RpcRequest :=
  { id := toString lastId
    jsonrpc := "2.0"
    method := "submit"
    params := some (.obj
      [("height", .num height), ("job_id", .num job_id),
       ("nonce", .num nonce), ("pow", pow)]) }

/-- The operations the controller performs over its lifetime that could
touch `last_request_id`.  `client.rs` assigns the field only in
`Controller::new`; every other function merely reads it. -/
inductive ControllerOp where
  | sendLogin (login pass version : String)
  | sendGetJobTemplate
  | sendGetStatus
  | sendSubmit (height job_id nonce : Nat) (pow : Json)
  | handleReq (req : RpcRequest)
  | handleRes (res : RpcResponse)
  | tryConnect
  | readMessage

/-- Effect of one controller operation on `last_request_id`: no
operation writes the field (no assignment outside `Controller::new`
exists in `client.rs`). -/
def opLastRequestId (op : ControllerOp) (lastId : Nat) : Nat :=
  match op with
  | .sendLogin _ _ _ => lastId
  | .sendGetJobTemplate => lastId
  | .sendGetStatus => lastId
  | .sendSubmit _ _ _ _ => lastId
  | .handleReq _ => lastId
  | .handleRes _ => lastId
  | .tryConnect => lastId
  | .readMessage => lastId

/-- `last_request_id` after a sequence of controller operations,
starting from the value set by `Controller::new`. -/
def runLastRequestId (ops : List ControllerOp) : Nat :=
  ops.foldl (fun n op => opLastRequestId op n) newLastRequestId

/-- The outbound request produced by one controller operation at a
given `last_request_id` (an empty configured login sends nothing). -/
def opRequest (op : ControllerOp) (lastId : Nat) (alg : Algorithm) :
    Option RpcRequest :=
  match op with
  | .sendLogin login pass version =>
    if login = "" then none else some (login_request lastId login pass version)
  | .sendGetJobTemplate => some (get_job_template_request lastId alg)
  | .sendGetStatus => some (status_request lastId)
  | .sendSubmit height job_id nonce pow =>
    some (submit_request lastId height job_id nonce pow)
  | .handleReq _ => none
  | .handleRes _ => none
  | .tryConnect => none
  | .readMessage => none

/-- An inbound frame after the run loop's classification: the frame is
a request exactly when its `method` field is `"job"`, otherwise a
response. -/
inductive Frame where
  | request (req : RpcRequest)
  | response (res : RpcResponse)

/-- The run loop's display name for the controller's algorithm, written
to `stats.client_stats.my_algorithm` on every received frame. -/
def display_my_algorithm (alg : Algorithm) : String :=
  match alg with
  | .Cuckoo => "Cuckatoo"
  | .RandomX => "RandomX"
  | .ProgPow => "ProgPow"

/-- The run loop's processing of one received frame (client.rs lines
683 onward): first `my_algorithm` is refreshed and `connected` is set
to `true` under the stats lock, then the frame is dispatched to
`handle_request` or `handle_response`. -/
def processFrame (alg : Algorithm) (f : Frame) (st : Stats) :
    Stats × List MinerMessage :=
  let st :=
    { st with client_stats :=
      { st.client_stats with
          my_algorithm := display_my_algorithm alg
          connected := true } }
  match f with
  | .request req =>
    let r := handle_request alg req st
    (r.2.1, r.2.2)
  | .response res =>
    let r := handle_response alg res st
    (r.2.1, r.2.2)

/-- Stats after the run loop processes a list of frames in order. -/
def processFrames (alg : Algorithm) (frames : List Frame) (st : Stats) : Stats :=
  frames.foldl (fun s f => (processFrame alg f s).1) st

/-- The events relevant to the lock discipline: acquiring/releasing the
stats write lock, transport I/O, and miner-channel sends. -/
inductive Event where
  | lockAcquire
  | lockRelease
  | transportWrite
  | transportFlush
  | transportRead
  | channelSend
deriving DecidableEq, Repr

/-- Is this event a transport I/O call? -/
def Event.isTransport : Event → Bool
  | .transportWrite => true
  | .transportFlush => true
  | .transportRead => true
  | _ => false

/-- Is this event a transport I/O call or a miner-channel send? -/
def Event.isTransportOrSend : Event → Bool
  | .channelSend => true
  | e => e.isTransport

/-- Does some event satisfying `bad` occur while the lock is held
(i.e. strictly between an acquire and its release)?  `depth` counts
currently held acquisitions. -/
def heldAcrossAux (bad : Event → Bool) : Nat → List Event → Bool
  | _, [] => false
  | depth, e :: rest =>
    match e with
    | .lockAcquire => heldAcrossAux bad (depth + 1) rest
    | .lockRelease => heldAcrossAux bad (depth - 1) rest
    | _ => (bad e && decide (0 < depth)) || heldAcrossAux bad depth rest

/-- Does some event satisfying `bad` occur while the stats lock is
held, in this trace? -/
def heldAcross (bad : Event → Bool) (t : List Event) : Bool :=
  heldAcrossAux bad 0 t

/-- `Controller::send_message`'s event trace: write the message bytes,
write the newline, flush (no lock involvement). -/
def send_message_trace : List Event :=
  [.transportWrite, .transportWrite, .transportFlush]

/-- `send_message_get_job_template`: stats lock taken and released in
an inner block (to set `last_message_sent`), then the transport
write. -/
def send_message_get_job_template_trace : List Event :=
  [.lockAcquire, .lockRelease] ++ send_message_trace

/-- `send_login` with a non-empty configured login: stats lock taken
and released in an inner block, then the transport write. -/
def send_login_trace : List Event :=
  [.lockAcquire, .lockRelease] ++ send_message_trace

/-- `send_message_get_status`: no stats access at all. -/
def send_message_get_status_trace : List Event :=
  send_message_trace

/-- `send_message_submit`: stats lock taken and released in an inner
block (to set `last_message_sent`), then the transport write. -/
def send_message_submit_trace : List Event :=
  [.lockAcquire, .lockRelease] ++ send_message_trace

/-- `send_miner_job` (successful path): the seed is sent first without
the lock; then the stats write guard is acquired (line 407) and is
still live when the final `miner_tx.send` of the job happens (line
414) — the guard is only dropped when the function returns. -/
def send_miner_job_trace : List Event :=
  [.channelSend, .lockAcquire, .channelSend, .lockRelease]

/-- `send_miner_job` when difficulty extraction fails: only the seed
send happened; the stats lock was never taken. -/
def send_miner_job_err_trace : List Event :=
  [.channelSend]

/-- `handle_request` on a matching job delegates to `send_miner_job`;
on a mismatch it only sends `StopJob`; on its error paths it touches
nothing. -/
def handle_request_stop_trace : List Event :=
  [.channelSend]

/-- `handle_response` branches that only update stats under the lock
(status, submit, keepalive/login/seed errors, unknown method): acquire
then release, nothing in between. -/
def handle_response_stats_only_trace : List Event :=
  [.lockAcquire, .lockRelease]

/-- `handle_response` on a successful `getjobtemplate`: one
stats-only lock block, then `send_miner_job`. -/
def handle_response_getjobtemplate_trace : List Event :=
  [.lockAcquire, .lockRelease] ++ send_miner_job_trace

/-- `handle_response` on a successful `seed`: a bare channel send. -/
def handle_response_seed_trace : List Event :=
  [.channelSend]

/-- The run loop's connect-retry bookkeeping (both the failure and the
success arm): a stats lock block with no I/O inside. -/
def run_connect_status_trace : List Event :=
  [.lockAcquire, .lockRelease]

/-- The run loop's read path: the transport read, then the stats lock
block setting `my_algorithm`/`connected`, then dispatch (dispatch
traces listed separately). -/
def run_read_trace : List Event :=
  [.transportRead, .lockAcquire, .lockRelease]

/-- All stats-lock-relevant code-path traces of the controller other
than the successful `send_miner_job` path (`send_miner_job_trace`)
and the paths that contain it. -/
def other_lock_traces : List (List Event) :=
  [send_message_trace, send_message_get_job_template_trace,
   send_login_trace, send_message_get_status_trace,
   send_message_submit_trace, send_miner_job_err_trace,
   handle_request_stop_trace, handle_response_stats_only_trace,
   handle_response_seed_trace, run_connect_status_trace,
   run_read_trace]

/-- Is this miner message a `ReceivedJob`? -/
def MinerMessage.isJob : MinerMessage → Bool
  | .ReceivedJob _ _ _ _ => true
  | _ => false

/-- Is this miner message a `ReceivedSeed`? -/
def MinerMessage.isSeed : MinerMessage → Bool
  | .ReceivedSeed _ => true
  | _ => false

/-- Is this miner message a `StopJob`? -/
def MinerMessage.isStop : MinerMessage → Bool
  | .StopJob => true
  | _ => false

/-- The specification's reading of the difficulty extraction: the value
paired with the controller's algorithm token in the association list,
defaulting to 1 when that token is absent. -/
def lookupDiff (alg : Algorithm) (l : List (String × Nat)) : Nat :=
  match l.find? (fun p => p.1 = parse_algorithm alg) with
  | some p => p.2
  | none => 1

/-- Fresh stats, with the defaults the spec describes. -/
def initStats : Stats := {}

/-- A well-formed job payload for algorithm `cuckoo` at height 100 with
share difficulty 7. -/
def goodJobJson : Json :=
  .obj [("height", .num 100), ("job_id", .num 5), ("pre_pow", .str "pre"),
        ("algorithm", .str "cuckoo"),
        ("difficulty", .arr [.arr [.str "cuckoo", .num 7]]),
        ("block_difficulty", .arr [.arr [.str "cuckoo", .num 9999999]]),
        ("epochs", .arr [])]

/-- The `JobTemplate` that `goodJobJson` decodes to. -/
def goodJob : JobTemplate :=
  { height := 100, job_id := 5, pre_pow := "pre", algorithm := "cuckoo",
    difficulty := [("cuckoo", 7)], block_difficulty := [("cuckoo", 9999999)],
    epochs := .arr [] }

/-- A `job` request carrying `goodJobJson`. -/
def goodJobReq : RpcRequest :=
  { id := "0", jsonrpc := "2.0", method := "job", params := some goodJobJson }

/-- A successful `getjobtemplate` response carrying `goodJobJson`. -/
def goodJobRes : RpcResponse :=
  { id := "0", jsonrpc := "2.0", method := "getjobtemplate",
    result := some goodJobJson, error := none }

/-- A job payload matching the controller's algorithm whose difficulty
list holds an unsupported algorithm name. -/
def badDiffJobJson : Json :=
  .obj [("height", .num 100), ("job_id", .num 5), ("pre_pow", .str "pre"),
        ("algorithm", .str "cuckoo"),
        ("difficulty", .arr [.arr [.str "foo", .num 5]]),
        ("block_difficulty", .arr [.arr [.str "cuckoo", .num 9999999]]),
        ("epochs", .arr [])]

/-- A `job` request carrying `badDiffJobJson`. -/
def badDiffJobReq : RpcRequest :=
  { id := "0", jsonrpc := "2.0", method := "job", params := some badDiffJobJson }

/-- A request whose method is not `job`. -/
def statusMethodReq : RpcRequest :=
  { id := "0", jsonrpc := "2.0", method := "status", params := none }

/-- A successful `submit` response whose result text contains
`blockfound`. -/
def submitOkRes : RpcResponse :=
  { id := "0", jsonrpc := "2.0", method := "submit",
    result := some (.str "blockfound"), error := none }

/-- A failed `submit` response whose error message contains
`too late`. -/
def submitStaleRes : RpcResponse :=
  { id := "0", jsonrpc := "2.0", method := "submit", result := none,
    error := some { code := -1, message := "share is too late" } }

/-- A failed `login` response. -/
def loginErrRes : RpcResponse :=
  { id := "0", jsonrpc := "2.0", method := "login", result := none,
    error := some { code := -32, message := "missing login" } }

/-- A successful `keepalive` response. -/
def keepaliveOkRes : RpcResponse :=
  { id := "0", jsonrpc := "2.0", method := "keepalive",
    result := some (.str "ok"), error := none }

lemma get_parse_parse_algorithm (alg : Algorithm) :
    get_parse_algorithm (parse_algorithm alg) = .ok alg := by
  cases alg <;> rfl

lemma opLastRequestId_eq (op : ControllerOp) (n : Nat) :
    opLastRequestId op n = n := by
  cases op <;> rfl

/-- The job-algorithm comparison in the handlers is equivalent to the
job's `algorithm` field being the controller's own token. -/
lemma algo_match_iff (alg : Algorithm) (s : String) :
    (parse_algorithm alg = algo_needed_token s) ↔ s = parse_algorithm alg := by
  cases alg <;> simp only [parse_algorithm, algo_needed_token] <;>
    split_ifs <;> simp_all

/-- When every key of the difficulty list is a supported token, the
difficulty-extraction loop returns the association-list lookup keyed by
the controller's token, with default 1. -/
lemma extract_difficulty_eq_lookup (alg : Algorithm) (l : List (String × Nat))
    (h : ∀ p ∈ l, p.1 = "cuckoo" ∨ p.1 = "randomx" ∨ p.1 = "progpow") :
    extract_difficulty alg l = .ok (lookupDiff alg l) := by
  induction l with
  | nil => rfl
  | cons hd tl ih =>
    obtain ⟨algo, d⟩ := hd
    have hh := h (algo, d) (by simp)
    have htl : ∀ p ∈ tl, p.1 = "cuckoo" ∨ p.1 = "randomx" ∨ p.1 = "progpow" :=
      fun p hp => h p (List.mem_cons_of_mem _ hp)
    have ihtl := ih htl
    rcases hh with h1 | h1 | h1 <;> subst h1 <;> cases alg <;>
      simp_all [extract_difficulty, get_parse_algorithm, lookupDiff,
        List.find?, parse_algorithm]

/-- The difficulty-extraction loop fails only with the
algorithm-unsupported error. -/
lemma extract_difficulty_error (alg : Algorithm) (l : List (String × Nat))
    (e : Error) (h : extract_difficulty alg l = .error e) :
    e = .RequestError "Algorithm isn't supported!" := by
  induction l with
  | nil => simp [extract_difficulty] at h
  | cons hd tl ih =>
    obtain ⟨algo, d⟩ := hd
    unfold extract_difficulty at h
    unfold get_parse_algorithm at h
    split_ifs at h <;> (try split at h) <;> (try split at h) <;> simp_all

/-- A failed `JobTemplate` decode carries exactly the JSON-decode
error. -/
lemma jobTemplateFromJson_error (p : Json) (e : Error)
    (h : jobTemplateFromJson p = .error e) : e = jsonDecodeError "JobTemplate" := by
  unfold jobTemplateFromJson at h
  cases p <;> (try split at h) <;> (try split at h) <;> simp_all

/-- `send_miner_job` either succeeds or fails with the
algorithm-unsupported error. -/
lemma send_miner_job_result (alg : Algorithm) (job : JobTemplate) (st : Stats) :
    (send_miner_job alg job st).1 = .ok () ∨
      (send_miner_job alg job st).1 =
        .error (.RequestError "Algorithm isn't supported!") := by
  unfold send_miner_job
  cases hx : extract_difficulty alg job.difficulty with
  | error e =>
    right
    simp [extract_difficulty_error alg job.difficulty e hx]
  | ok d => left; rfl

/-- On a successful difficulty extraction, `send_miner_job` sends the
seed first and then the job message carrying the extracted
difficulty. -/
lemma send_miner_job_msgs (alg : Algorithm) (job : JobTemplate) (st : Stats)
    (d : Nat) (hx : extract_difficulty alg job.difficulty = .ok d) :
    (send_miner_job alg job st).2.2 =
      [MinerMessage.ReceivedSeed job.epochs,
       MinerMessage.ReceivedJob job.height job.job_id d job.pre_pow] := by
  unfold send_miner_job
  simp [hx]

/-- `handle_request` on a decodable `job` request reduces to the
algorithm test and job/stop dispatch. -/
lemma handle_request_job (alg : Algorithm) (st : Stats) (req : RpcRequest)
    (p : Json) (job : JobTemplate)
    (hm : req.method = "job") (hp : req.params = some p)
    (hdec : jobTemplateFromJson p = .ok job) :
    handle_request alg req st =
      if parse_algorithm alg = algo_needed_token job.algorithm then
        send_miner_job alg job st
      else send_miner_stop st := by
  simp [handle_request, hm, hp, hdec]

/-- C4 (amended): whenever a job whose algorithm matches the
controller's token is forwarded to the miner, the `ReceivedSeed`
message is sent first and the `ReceivedJob` message second — the
reverse of the order the claim states. -/
theorem claim4_theorem (alg : Algorithm) (job : JobTemplate) (st : Stats)
    (d : Nat) (hx : extract_difficulty alg job.difficulty = .ok d) :
    (send_miner_job alg job st).2.2 =
      [MinerMessage.ReceivedSeed job.epochs,
       MinerMessage.ReceivedJob job.height job.job_id d job.pre_pow] ∧
    ((send_miner_job alg job st).2.2).head? =
      some (MinerMessage.ReceivedSeed job.epochs) := by
  have h := send_miner_job_msgs alg job st d hx
  exact ⟨h, by rw [h]; rfl⟩

/-- Witness for C4 (amended) at the concrete `goodJob` payload. -/
theorem claim4_witness :
    (send_miner_job .Cuckoo goodJob initStats).2.2 =
      [MinerMessage.ReceivedSeed (.arr []),
       MinerMessage.ReceivedJob 100 5 7 "pre"] ∧
    ((send_miner_job .Cuckoo goodJob initStats).2.2).head? =
      some (MinerMessage.ReceivedSeed (.arr [])) :=
  claim4_theorem .Cuckoo goodJob initStats 7 rfl

/-- Counterexample to C4 as stated: on the concrete matching job
request `goodJobReq`, the miner channel receives `ReceivedSeed` first
and `ReceivedJob` second, so the claimed job-before-seed order is
false. -/
theorem claim4_counterexample :
    (handle_request .Cuckoo goodJobReq initStats).2.2 =
      [MinerMessage.ReceivedSeed (.arr []),
       MinerMessage.ReceivedJob 100 5 7 "pre"] ∧
    ((handle_request .Cuckoo goodJobReq initStats).2.2).head? ≠
      some (MinerMessage.ReceivedJob 100 5 7 "pre") := by
  refine ⟨rfl, ?_⟩
  intro hcontra
  rw [show (handle_request .Cuckoo goodJobReq initStats).2.2 =
      [MinerMessage.ReceivedSeed (.arr []),
       MinerMessage.ReceivedJob 100 5 7 "pre"] from rfl] at hcontra
  simp at hcontra

/-- C2: on a `submit` response with a result present, exactly one
share-accepted increment happens; the blocks-found counter is
incremented (by 1) iff the serialized result text contains
`blockfound`; the rejected and staled counters are unchanged. -/
theorem claim2_theorem (alg : Algorithm) (st : Stats) (res : RpcResponse)
    (j : Json) (hm : res.method = "submit") (hr : res.result = some j) :
    ((handle_response alg res st).2.1.solution_stats.num_shares_accepted =
      st.solution_stats.num_shares_accepted + 1) ∧
    ((handle_response alg res st).2.1.solution_stats.num_blocks_found =
      (if strContains (jsonToString j) "blockfound" then
        st.solution_stats.num_blocks_found + 1
      else st.solution_stats.num_blocks_found)) ∧
    ((handle_response alg res st).2.1.solution_stats.num_blocks_found =
        st.solution_stats.num_blocks_found + 1 ↔
      strContains (jsonToString j) "blockfound" = true) ∧
    ((handle_response alg res st).2.1.solution_stats.num_rejected =
      st.solution_stats.num_rejected) ∧
    ((handle_response alg res st).2.1.solution_stats.num_staled =
      st.solution_stats.num_staled) := by
  by_cases hc : strContains (jsonToString j) "blockfound" = true <;>
    simp [handle_response, hm, hr, hc]

/-- Witness for C2 on a concrete block-found `submit` response. -/
theorem claim2_witness :
    ((handle_response .Cuckoo submitOkRes initStats).2.1.solution_stats.num_shares_accepted =
      initStats.solution_stats.num_shares_accepted + 1) ∧
    ((handle_response .Cuckoo submitOkRes initStats).2.1.solution_stats.num_blocks_found =
      (if strContains (jsonToString (.str "blockfound")) "blockfound" then
        initStats.solution_stats.num_blocks_found + 1
      else initStats.solution_stats.num_blocks_found)) ∧
    ((handle_response .Cuckoo submitOkRes initStats).2.1.solution_stats.num_blocks_found =
        initStats.solution_stats.num_blocks_found + 1 ↔
      strContains (jsonToString (.str "blockfound")) "blockfound" = true) ∧
    ((handle_response .Cuckoo submitOkRes initStats).2.1.solution_stats.num_rejected =
      initStats.solution_stats.num_rejected) ∧
    ((handle_response .Cuckoo submitOkRes initStats).2.1.solution_stats.num_staled =
      initStats.solution_stats.num_staled) :=
  claim2_theorem .Cuckoo initStats submitOkRes (.str "blockfound") rfl rfl

/-- C3: on a `submit` response without a result (the error present, or
the synthetic invalid-error-response value substituted when neither is
present), the staled counter is incremented iff the error message
contains `too late`, otherwise the rejected counter is incremented;
never both; the accepted and blocks-found counters are unchanged. -/
theorem claim3_theorem (alg : Algorithm) (st : Stats) (res : RpcResponse)
    (hm : res.method = "submit") (hr : res.result = none) :
    ((handle_response alg res st).2.1.solution_stats.num_staled =
      (if strContains (res.error.getD invlalid_error_response).message "too late" then
        st.solution_stats.num_staled + 1
      else st.solution_stats.num_staled)) ∧
    ((handle_response alg res st).2.1.solution_stats.num_staled =
        st.solution_stats.num_staled + 1 ↔
      strContains (res.error.getD invlalid_error_response).message "too late" = true) ∧
    ((handle_response alg res st).2.1.solution_stats.num_rejected =
        st.solution_stats.num_rejected + 1 ↔
      ¬ strContains (res.error.getD invlalid_error_response).message "too late" = true) ∧
    ¬ ((handle_response alg res st).2.1.solution_stats.num_staled =
        st.solution_stats.num_staled + 1 ∧
      (handle_response alg res st).2.1.solution_stats.num_rejected =
        st.solution_stats.num_rejected + 1) ∧
    ((handle_response alg res st).2.1.solution_stats.num_shares_accepted =
      st.solution_stats.num_shares_accepted) ∧
    ((handle_response alg res st).2.1.solution_stats.num_blocks_found =
      st.solution_stats.num_blocks_found) := by
  by_cases hc :
      strContains (res.error.getD invlalid_error_response).message "too late" = true <;>
    simp [handle_response, hm, hr, hc]

/-- Witness for C3 on a concrete stale-share `submit` error response. -/
theorem claim3_witness :
    ((handle_response .Cuckoo submitStaleRes initStats).2.1.solution_stats.num_staled =
      (if strContains (submitStaleRes.error.getD invlalid_error_response).message "too late" then
        initStats.solution_stats.num_staled + 1
      else initStats.solution_stats.num_staled)) ∧
    ((handle_response .Cuckoo submitStaleRes initStats).2.1.solution_stats.num_staled =
        initStats.solution_stats.num_staled + 1 ↔
      strContains (submitStaleRes.error.getD invlalid_error_response).message "too late" = true) ∧
    ((handle_response .Cuckoo submitStaleRes initStats).2.1.solution_stats.num_rejected =
        initStats.solution_stats.num_rejected + 1 ↔
      ¬ strContains (submitStaleRes.error.getD invlalid_error_response).message "too late" = true) ∧
    ¬ ((handle_response .Cuckoo submitStaleRes initStats).2.1.solution_stats.num_staled =
        initStats.solution_stats.num_staled + 1 ∧
      (handle_response .Cuckoo submitStaleRes initStats).2.1.solution_stats.num_rejected =
        initStats.solution_stats.num_rejected + 1) ∧
    ((handle_response .Cuckoo submitStaleRes initStats).2.1.solution_stats.num_shares_accepted =
      initStats.solution_stats.num_shares_accepted) ∧
    ((handle_response .Cuckoo submitStaleRes initStats).2.1.solution_stats.num_blocks_found =
      initStats.solution_stats.num_blocks_found) :=
  claim3_theorem .Cuckoo initStats submitStaleRes rfl rfl

/-- C7: `read_message` yields `Ok None` on `WouldBlock`; it yields the
broken-pipe connection error when the stream is absent, on an empty
(0-byte) read, on a `BrokenPipe` error and on any other I/O error; and
it returns the line read in all remaining cases. -/
theorem claim7_theorem (o : ReadLineOutcome) (line : String) :
    read_message false o = .error (.ConnectionError "broken pipe") ∧
    read_message true (.ok "") = .error (.ConnectionError "broken pipe") ∧
    read_message true (.err .brokenPipe) = .error (.ConnectionError "broken pipe") ∧
    read_message true (.err .otherIo) = .error (.ConnectionError "broken pipe") ∧
    read_message true (.err .wouldBlock) = .ok none ∧
    (line ≠ "" → read_message true (.ok line) = .ok (some line)) := by
  refine ⟨rfl, rfl, rfl, rfl, rfl, fun h => ?_⟩
  simp [read_message, h]

/-- Witness for C7 at a concrete non-empty line. -/
theorem claim7_witness :
    read_message false (.err .wouldBlock) = .error (.ConnectionError "broken pipe") ∧
    read_message true (.ok "") = .error (.ConnectionError "broken pipe") ∧
    read_message true (.err .brokenPipe) = .error (.ConnectionError "broken pipe") ∧
    read_message true (.err .otherIo) = .error (.ConnectionError "broken pipe") ∧
    read_message true (.err .wouldBlock) = .ok none ∧
    read_message true (.ok "hello\n") = .ok (some "hello\n") := by
  have h := claim7_theorem (.err .wouldBlock) "hello\n"
  exact ⟨h.1, h.2.1, h.2.2.1, h.2.2.2.1, h.2.2.2.2.1,
    h.2.2.2.2.2 (by decide)⟩

/-- C8 (amended): no code path of the controller holds the stats write
lock across a transport I/O call; however `send_miner_job` (and hence
the successful `getjobtemplate` dispatch that contains it) holds the
stats write guard across its final miner-channel send of the job
message, so the lock-never-held-across-a-channel-send part of the
claim fails exactly there, and holds on every other path. -/
theorem claim8_theorem :
    (other_lock_traces.all fun t => !heldAcross Event.isTransportOrSend t) = true ∧
    heldAcross Event.isTransport send_miner_job_trace = false ∧
    heldAcross Event.isTransport handle_response_getjobtemplate_trace = false ∧
    heldAcross Event.isTransportOrSend send_miner_job_trace = true := by
  decide

/-- Counterexample to C8 as stated: the successful `send_miner_job`
path performs a miner-channel send while the stats write lock is
held. -/
theorem claim8_counterexample :
    heldAcross Event.isTransportOrSend send_miner_job_trace = true := by
  decide

/-- The miner-channel messages of a handler result. -/
def msgsOf (r : Except Error Unit × Stats × List MinerMessage) :
    List MinerMessage := r.2.2

/-- C1 (amended): for a `job` request and a successful `getjobtemplate`
response decoding to the same job template — provided every algorithm
name in the job's difficulty list is a supported token — a job whose
`algorithm` equals the controller's token makes the miner receive
exactly one `ReceivedJob` carrying (height, job_id, difficulty,
pre_pow) with the difficulty looked up under the controller's token
(default 1 if absent), together with exactly one `ReceivedSeed` (on
both paths); a job whose `algorithm` differs makes it receive exactly
one `StopJob` and no `ReceivedJob`. -/
theorem claim1_theorem (alg : Algorithm) (st : Stats) (job : JobTemplate)
    (req : RpcRequest) (res : RpcResponse) (p q : Json)
    (hreq : req.method = "job") (hp : req.params = some p)
    (hdecp : jobTemplateFromJson p = .ok job)
    (hres : res.method = "getjobtemplate") (hq : res.result = some q)
    (hdecq : jobTemplateFromJson q = .ok job)
    (hkeys : ∀ pr ∈ job.difficulty,
      pr.1 = "cuckoo" ∨ pr.1 = "randomx" ∨ pr.1 = "progpow") :
    (job.algorithm = parse_algorithm alg →
      msgsOf (handle_request alg req st) =
        [MinerMessage.ReceivedSeed job.epochs,
         MinerMessage.ReceivedJob job.height job.job_id
           (lookupDiff alg job.difficulty) job.pre_pow] ∧
      msgsOf (handle_response alg res st) =
        [MinerMessage.ReceivedSeed job.epochs,
         MinerMessage.ReceivedJob job.height job.job_id
           (lookupDiff alg job.difficulty) job.pre_pow] ∧
      (msgsOf (handle_request alg req st)).countP (·.isJob) = 1 ∧
      (msgsOf (handle_request alg req st)).countP (·.isSeed) = 1 ∧
      (msgsOf (handle_response alg res st)).countP (·.isJob) = 1) ∧
    (job.algorithm ≠ parse_algorithm alg →
      msgsOf (handle_request alg req st) = [MinerMessage.StopJob] ∧
      msgsOf (handle_response alg res st) = [MinerMessage.StopJob] ∧
      (msgsOf (handle_request alg req st)).countP (·.isStop) = 1 ∧
      (msgsOf (handle_request alg req st)).countP (·.isJob) = 0 ∧
      (msgsOf (handle_response alg res st)).countP (·.isJob) = 0) := by
  have hext := extract_difficulty_eq_lookup alg job.difficulty hkeys
  constructor
  · intro halg
    have hmatch : parse_algorithm alg = algo_needed_token job.algorithm :=
      (algo_match_iff alg job.algorithm).mpr halg
    have hreqmsgs : msgsOf (handle_request alg req st) =
        [MinerMessage.ReceivedSeed job.epochs,
         MinerMessage.ReceivedJob job.height job.job_id
           (lookupDiff alg job.difficulty) job.pre_pow] := by
      rw [msgsOf, handle_request_job alg st req p job hreq hp hdecp, if_pos hmatch]
      exact send_miner_job_msgs alg job st _ hext
    have hresmsgs : msgsOf (handle_response alg res st) =
        [MinerMessage.ReceivedSeed job.epochs,
         MinerMessage.ReceivedJob job.height job.job_id
           (lookupDiff alg job.difficulty) job.pre_pow] := by
      rw [msgsOf]
      simp only [handle_response, hres, hq, hdecq]
      norm_num [hmatch]
      exact send_miner_job_msgs alg job _ _ hext
    refine ⟨hreqmsgs, hresmsgs, ?_, ?_, ?_⟩ <;>
      simp [hreqmsgs, hresmsgs, List.countP, List.countP.go,
        MinerMessage.isJob, MinerMessage.isSeed]
  · intro halg
    have hmatch : ¬ (parse_algorithm alg = algo_needed_token job.algorithm) :=
      fun hc => halg ((algo_match_iff alg job.algorithm).mp hc)
    have hreqmsgs : msgsOf (handle_request alg req st) = [MinerMessage.StopJob] := by
      rw [msgsOf, handle_request_job alg st req p job hreq hp hdecp, if_neg hmatch]
      rfl
    have hresmsgs : msgsOf (handle_response alg res st) = [MinerMessage.StopJob] := by
      rw [msgsOf]
      simp only [handle_response, hres, hq, hdecq]
      norm_num [hmatch]
      rfl
    refine ⟨hreqmsgs, hresmsgs, ?_, ?_, ?_⟩ <;>
      simp [hreqmsgs, hresmsgs, List.countP, List.countP.go,
        MinerMessage.isJob, MinerMessage.isStop]

/-- Witness for C1 (amended): the matching branch at `Cuckoo` and the
mismatching branch at `RandomX`, both on the concrete `goodJob`
payload. -/
theorem claim1_witness :
    msgsOf (handle_request .Cuckoo goodJobReq initStats) =
      [MinerMessage.ReceivedSeed (.arr []),
       MinerMessage.ReceivedJob 100 5 7 "pre"] ∧
    msgsOf (handle_response .Cuckoo goodJobRes initStats) =
      [MinerMessage.ReceivedSeed (.arr []),
       MinerMessage.ReceivedJob 100 5 7 "pre"] ∧
    msgsOf (handle_request .RandomX goodJobReq initStats) =
      [MinerMessage.StopJob] ∧
    msgsOf (handle_response .RandomX goodJobRes initStats) =
      [MinerMessage.StopJob] := by
  have h1 := (claim1_theorem .Cuckoo initStats goodJob goodJobReq goodJobRes
    goodJobJson goodJobJson rfl rfl rfl rfl rfl rfl (by decide)).1 rfl
  have h2 := (claim1_theorem .RandomX initStats goodJob goodJobReq goodJobRes
    goodJobJson goodJobJson rfl rfl rfl rfl rfl rfl (by decide)).2 (by decide)
  exact ⟨h1.1, h1.2.1, h2.1, h2.2.1⟩

/-- Counterexample to C1 as stated: `badDiffJobReq` carries a job whose
`algorithm` equals the controller's token but whose difficulty list
holds the unsupported name `"foo"`; the miner then receives the seed
but no `ReceivedJob` at all (the handler aborts mid-way), instead of
the claimed exactly-one `ReceivedJob` with default difficulty 1. -/
theorem claim1_counterexample :
    (msgsOf (handle_request .Cuckoo badDiffJobReq initStats)).countP (·.isJob) = 0 ∧
    msgsOf (handle_request .Cuckoo badDiffJobReq initStats) =
      [MinerMessage.ReceivedSeed (.arr [])] ∧
    (handle_request .Cuckoo badDiffJobReq initStats).1 =
      .error (.RequestError "Algorithm isn't supported!") :=
  ⟨rfl, rfl, rfl⟩

/-- C5 (amended): the `login` error handler establishes
`connection_status = "Connection Status: Server requires login"` and
`connected = false` together; but the invariant is not preserved by the
run loop: processing any subsequent frame (here: a successful
`keepalive` response) sets `connected` to `true` while leaving
`connection_status` untouched. -/
theorem claim5_theorem (alg : Algorithm) (st st' : Stats)
    (res resKeep : RpcResponse)
    (hm : res.method = "login") (hr : res.result = none)
    (hk : resKeep.method = "keepalive") (hkr : ∃ j, resKeep.result = some j) :
    ((handle_response alg res st).2.1.client_stats.connection_status =
      "Connection Status: Server requires login" ∧
     (handle_response alg res st).2.1.client_stats.connected = false) ∧
    ((processFrame alg (.response resKeep) st').1.client_stats.connected = true ∧
     (processFrame alg (.response resKeep) st').1.client_stats.connection_status =
       st'.client_stats.connection_status) := by
  obtain ⟨j, hj⟩ := hkr
  refine ⟨?_, ?_⟩
  · constructor <;> simp [handle_response, hm, hr]
  · constructor <;> simp [processFrame, handle_response, hk, hj]

/-- Witness for C5 (amended) on concrete login-error and keepalive
responses. -/
theorem claim5_witness :
    ((handle_response .Cuckoo loginErrRes initStats).2.1.client_stats.connection_status =
      "Connection Status: Server requires login" ∧
     (handle_response .Cuckoo loginErrRes initStats).2.1.client_stats.connected = false) ∧
    ((processFrame .Cuckoo (.response keepaliveOkRes) initStats).1.client_stats.connected = true ∧
     (processFrame .Cuckoo (.response keepaliveOkRes) initStats).1.client_stats.connection_status =
       initStats.client_stats.connection_status) :=
  claim5_theorem .Cuckoo initStats initStats loginErrRes keepaliveOkRes
    rfl rfl rfl ⟨.str "ok", rfl⟩

/-- Counterexample to C5 as stated: starting fresh, process a `login`
error response and then a further frame (a successful `keepalive`
response); the resulting reachable stats report "Server requires
login" in `connection_status` while `connected` is `true`. -/
theorem claim5_counterexample :
    (processFrames .Cuckoo
        [.response loginErrRes, .response keepaliveOkRes] initStats).client_stats.connection_status =
      "Connection Status: Server requires login" ∧
    (processFrames .Cuckoo
        [.response loginErrRes, .response keepaliveOkRes] initStats).client_stats.connected =
      true :=
  ⟨rfl, rfl⟩

/-- A `job` request without params. -/
def noParamsJobReq : RpcRequest :=
  { id := "0", jsonrpc := "2.0", method := "job", params := none }

/-- C6 (amended): `handle_request` returns the error
"No params in job request" exactly when the method is `job` and params
are absent, and returns the error "Unknonw method" (sic — the code's
misspelling of the claimed "Unknown method") exactly when the method is
anything other than `job`; in both error cases the stats are untouched
and no miner-channel message is sent. -/
theorem claim6_theorem (alg : Algorithm) (req : RpcRequest) (st : Stats) :
    ((handle_request alg req st).1 =
        .error (.RequestError "No params in job request") ↔
      (req.method = "job" ∧ req.params = none)) ∧
    ((handle_request alg req st).1 = .error (.RequestError "Unknonw method") ↔
      ¬ req.method = "job") ∧
    (req.method = "job" ∧ req.params = none →
      (handle_request alg req st).2.1 = st ∧
        (handle_request alg req st).2.2 = []) ∧
    (¬ req.method = "job" →
      (handle_request alg req st).2.1 = st ∧
        (handle_request alg req st).2.2 = []) := by
  by_cases hm : req.method = "job"
  · cases hp : req.params with
    | none => simp [handle_request, hm, hp]
    | some p =>
      cases hd : jobTemplateFromJson p with
      | error e =>
        have he := jobTemplateFromJson_error p e hd
        simp [handle_request, hm, hp, hd, he, jsonDecodeError]
      | ok job =>
        rcases send_miner_job_result alg job st with hs | hs <;>
          by_cases hmt : parse_algorithm alg = algo_needed_token job.algorithm <;>
          simp [handle_request, hm, hp, hd, hmt, hs, send_miner_stop]
  · simp [handle_request, hm]

/-- Witness for C6 (amended) on a param-less `job` request and on a
request with an unknown method. -/
theorem claim6_witness :
    (handle_request .Cuckoo noParamsJobReq initStats).1 =
      .error (.RequestError "No params in job request") ∧
    (handle_request .Cuckoo statusMethodReq initStats).1 =
      .error (.RequestError "Unknonw method") ∧
    (handle_request .Cuckoo statusMethodReq initStats).2.1 = initStats ∧
    (handle_request .Cuckoo statusMethodReq initStats).2.2 = [] := by
  have h1 := claim6_theorem .Cuckoo noParamsJobReq initStats
  have h2 := claim6_theorem .Cuckoo statusMethodReq initStats
  exact ⟨h1.1.mpr ⟨rfl, rfl⟩, h2.2.1.mpr (by decide),
    (h2.2.2.2 (by decide)).1, (h2.2.2.2 (by decide)).2⟩

/-- Counterexample to C6 as stated: on a request whose method is
`status`, the handler's error is the misspelled "Unknonw method", not
the claimed "Unknown method". -/
theorem claim6_counterexample :
    (handle_request .Cuckoo statusMethodReq initStats).1 =
      .error (.RequestError "Unknonw method") ∧
    ¬ (handle_request .Cuckoo statusMethodReq initStats).1 =
      .error (.RequestError "Unknown method") := by
  refine ⟨rfl, fun h => ?_⟩
  rw [show (handle_request .Cuckoo statusMethodReq initStats).1 =
      .error (.RequestError "Unknonw method") from rfl] at h
  simp at h

/-- The last-but-one element of a list, via `getD` at `length - 2`,
equals index 1 of the reverse. -/
lemma getD_len_sub_two (l : List String) (h : 2 ≤ l.length) :
    l.getD (l.length - 2) "" = l.reverse.getD 1 "" := by
  rw [List.getD_eq_getElem?_getD, List.getD_eq_getElem?_getD,
    List.getElem?_reverse (by omega),
    show l.length - 1 - 1 = l.length - 2 from by omega]

/-- The last element of a list, via `getD` at `length - 1`, equals
index 0 of the reverse. -/
lemma getD_len_sub_one (l : List String) (h : 2 ≤ l.length) :
    l.getD (l.length - 1) "" = l.reverse.getD 0 "" := by
  rw [List.getD_eq_getElem?_getD, List.getD_eq_getElem?_getD,
    List.getElem?_reverse (by omega),
    show l.length - 1 - 0 = l.length - 1 from by omega]

/-- C9: with TLS enabled, the SNI base host is the join of the last two
dot-separated labels of the endpoint's host portion; with fewer than
two labels the `usize` index computation underflows and the code
panics (modelled as `none`) rather than returning a `ConnectError`. -/
theorem claim9_theorem (url : String) :
    (2 ≤ (splitOnChar '.' ((splitOnChar ':' url).headD "")).length →
      base_host url =
        some ((splitOnChar '.' ((splitOnChar ':' url).headD "")).reverse.getD 1 "" ++ "." ++
          (splitOnChar '.' ((splitOnChar ':' url).headD "")).reverse.getD 0 "")) ∧
    ((splitOnChar '.' ((splitOnChar ':' url).headD "")).length < 2 →
      base_host url = none) := by
  constructor
  · intro h
    unfold base_host
    rw [if_neg (by omega),
      getD_len_sub_two (splitOnChar '.' ((splitOnChar ':' url).headD "")) h,
      getD_len_sub_one (splitOnChar '.' ((splitOnChar ':' url).headD "")) h]
  · intro h
    unfold base_host
    rw [if_pos h]

/-- A dotted TLS endpoint. -/
def dottedUrl : String := "pool.example.com:3333"

/-- A TLS endpoint whose host portion has no dot. -/
def dotlessUrl : String := "localhost:3333"

/-- Witness for C9: a multi-label host yields the last two labels as
SNI; a dot-less host panics (modelled `none`). -/
theorem claim9_witness :
    base_host dottedUrl = some "example.com" ∧
    base_host dotlessUrl = none := by
  have h1 := claim9_theorem dottedUrl
  have h2 := claim9_theorem dotlessUrl
  exact ⟨(h1.1 (by decide)).trans (by decide), h2.2 (by decide)⟩

/-- C10: every outbound request the controller produces — login,
getjobtemplate, status, submit — carries id `"0"`: `last_request_id`
starts at 0 in `Controller::new` and no controller operation ever
modifies it. -/
theorem claim10_theorem (ops : List ControllerOp) (op : ControllerOp)
    (alg : Algorithm) (r : RpcRequest)
    (hr : opRequest op (runLastRequestId ops) alg = some r) :
    runLastRequestId ops = 0 ∧ r.id = "0" := by
  have h0 : runLastRequestId ops = 0 := by
    unfold runLastRequestId
    have hfold : ∀ (l : List ControllerOp) (n : Nat),
        l.foldl (fun n op => opLastRequestId op n) n = n := by
      intro l
      induction l with
      | nil => intro n; rfl
      | cons hd tl ih => intro n; rw [List.foldl_cons, opLastRequestId_eq]; exact ih n
    exact hfold ops newLastRequestId
  refine ⟨h0, ?_⟩
  rw [h0] at hr
  cases op with
  | sendLogin login pass version =>
    simp only [opRequest] at hr
    split at hr
    · exact Option.noConfusion hr
    · injection hr with hr
      rw [← hr]
      rfl
  | sendGetJobTemplate =>
    simp only [opRequest] at hr
    injection hr with hr
    rw [← hr]
    rfl
  | sendGetStatus =>
    simp only [opRequest] at hr
    injection hr with hr
    rw [← hr]
    rfl
  | sendSubmit height job_id nonce pow =>
    simp only [opRequest] at hr
    injection hr with hr
    rw [← hr]
    rfl
  | handleReq req => exact Option.noConfusion hr
  | handleRes res => exact Option.noConfusion hr
  | tryConnect => exact Option.noConfusion hr
  | readMessage => exact Option.noConfusion hr

/-- Witness for C10: after a run of operations, a `status` request is
produced with id `"0"`. -/
theorem claim10_witness :
    runLastRequestId [.sendGetStatus, .sendGetJobTemplate] = 0 ∧
    (status_request 0).id = "0" :=
  claim10_theorem [.sendGetStatus, .sendGetJobTemplate] .sendGetStatus .Cuckoo
    (status_request 0) rfl
